import Mathlib

/-!
Shallow embedding of the StallionWear e-commerce backend's
order/cart/inventory core.

Conventions of the embedding:
  * JavaScript numbers that hold money (prices, totals, modifiers) are
    modelled as exact rationals `ℚ`; quantities (validated to be whole
    numbers by the schemas) are modelled as `ℤ`.
  * Mongoose documents become plain structures; `.save()` becomes a pure
    function that runs the schema's hooks and returns `Except String`
    (an error aborts the save, so the stored document is unchanged).
  * `Array.prototype.find` / `findIndex` keep their first-match
    semantics via explicit structural recursion.
  * Fields irrelevant to the verified behaviour (timestamps such as
    `addedAt` / `deliveredAt`, image lists, reviews) are omitted.
-/

/-- Decidable equality for `Except` results, used to evaluate the
embedded operations on concrete inputs. -/
instance {e a : Type} [DecidableEq e] [DecidableEq a] : DecidableEq (Except e a)
  | .error x, .error y =>
    match decEq x y with
    | isTrue h => isTrue (by rw [h])
    | isFalse h => isFalse (by intro he; cases he; exact h rfl)
  | .error _, .ok _ => isFalse (by intro h; cases h)
  | .ok _, .error _ => isFalse (by intro h; cases h)
  | .ok x, .ok y =>
    match decEq x y with
    | isTrue h => isTrue (by rw [h])
    | isFalse h => isFalse (by intro he; cases he; exact h rfl)

/-- A product variant: `(size, color)` stock-keeping unit
(src/unnamed/part_009, `variants` array of the elaborated schema). -/
structure Variant where
  size : String
  color : String
  quantity : ℤ
  priceModifier : ℚ
deriving DecidableEq, Repr

/-- A catalog product (src/unnamed/part_009, elaborated schema).
`stock` is the legacy scalar stock field, still present in the schema
and still consulted by `incrementCartItem`. -/
structure Product where
  name : String
  price : ℚ
  stock : ℤ
  variants : List Variant
deriving DecidableEq, Repr

/-- `v.size === size && v.color === color`, the variant matching
predicate used by `find` in the product methods. -/
def variantMatches (size color : String) (v : Variant) : Bool :=
  v.size == size && v.color == color

/-- `productSchema.methods.getVariant` (src/unnamed/part_009 lines
240-242): first variant matching `(size, color)`, or absent. -/
def Product.getVariant (p : Product) (size color : String) : Option Variant :=
  p.variants.find? (variantMatches size color)

/-- `productSchema.methods.isInStock` (src/unnamed/part_009 lines
232-237): truthy iff a matching variant is found and its quantity is at
least the requested quantity. -/
def Product.isInStock (p : Product) (size color : String) (quantity : ℤ) : Bool :=
  match p.getVariant size color with
  | some v => quantity ≤ v.quantity
  | none => false

/-- Replace the first variant matching `(size, color)` by `f` applied to
it (JavaScript mutates the element returned by `find` in place);
`none` when no variant matches. -/
def modifyFirstVariant (size color : String) (f : Variant → Variant) :
    List Variant → Option (List Variant)
  | [] => none
  | v :: rest =>
    if variantMatches size color v then
      some (f v :: rest)
    else
      (modifyFirstVariant size color f rest).map (v :: ·)

/-- `productSchema.methods.updateVariantStock` (src/unnamed/part_009
lines 245-252): if a matching variant exists, set its quantity to
`max(0, quantity - requested)` and save; otherwise throw
"Variant not found". -/
def Product.updateVariantStock (p : Product) (size color : String) (quantity : ℤ) :
    Except String Product :=
  match modifyFirstVariant size color
      (fun v => { v with quantity := max 0 (v.quantity - quantity) }) p.variants with
  | some vs => .ok { p with variants := vs }
  | none => .error "Variant not found"

/-- The `variant ? variant.priceModifier : 0` selector of
`getFinalPrice`. -/
def modifierOf : Option Variant → ℚ
  | some v => v.priceModifier
  | none => 0

/-- `productSchema.methods.getFinalPrice` (src/unnamed/part_009 lines
255-259): base price plus the matching variant's modifier, or the base
price alone when no variant matches. -/
def Product.getFinalPrice (p : Product) (size color : String) : ℚ :=
  p.price + modifierOf (p.getVariant size color)

/-- A cart line item (src/src/models/user.model.js `cart` array;
`addedAt` omitted).  The schema declares `min: 1, max: 99` on
`quantity`, but every cart save in the controllers passes
`validateBeforeSave: false`, so the bound is never enforced at save
time. -/
structure CartItem where
  product : String
  size : String
  color : String
  quantity : ℤ
  priceAtTime : ℚ
deriving DecidableEq, Repr

/-- The `(product, size, color)` cart-line key match used by
`findIndex` / `filter` in the user model and cart controllers. -/
def cartKeyMatches (productId size color : String) (it : CartItem) : Bool :=
  it.product == productId && it.size == size && it.color == color

/-- Replace the first cart line matching the key by `f` applied to it;
`none` when no line matches (mirrors `findIndex` followed by an
in-place update). -/
def modifyFirstLine (productId size color : String) (f : CartItem → CartItem) :
    List CartItem → Option (List CartItem)
  | [] => none
  | it :: rest =>
    if cartKeyMatches productId size color it then
      some (f it :: rest)
    else
      (modifyFirstLine productId size color f rest).map (it :: ·)

/-- `userSchema.methods.addToCart` (src/src/models/user.model.js lines
165-194): merge into the existing line for the key — `quantity +=
requested`, `priceAtTime = price` — or push a new line. -/
def User.addToCart (cart : List CartItem) (productId size color : String)
    (price : ℚ) (quantity : ℤ) : List CartItem :=
  match modifyFirstLine productId size color
      (fun it => { it with quantity := it.quantity + quantity, priceAtTime := price }) cart with
  | some cart' => cart'
  | none =>
    cart ++ [{ product := productId, size := size, color := color,
               quantity := quantity, priceAtTime := price }]

/-- `userSchema.methods.removeFromCart` (src/src/models/user.model.js
lines 196-206): keep exactly the lines whose key does not match. -/
def User.removeFromCart (cart : List CartItem) (productId size color : String) :
    List CartItem :=
  cart.filter (fun it => !(cartKeyMatches productId size color it))

/-- `userSchema.methods.getCartTotal` (src/src/models/user.model.js
lines 213-217). -/
def User.getCartTotal (cart : List CartItem) : ℚ :=
  cart.foldl (fun total it => total + it.priceAtTime * (it.quantity : ℚ)) 0

/-- The `orderStatus` enumeration (src/unnamed/part_011 lines 89-93). -/
inductive OrderStatus
  | Processing
  | Confirmed
  | Shipped
  | Delivered
  | Cancelled
deriving DecidableEq, Repr

/-- Parse a submitted status string against the enumerated list, as
`["Processing", ...].includes(newStatus)` does in `updateStatus`. -/
def OrderStatus.ofString : String → Option OrderStatus
  | "Processing" => some .Processing
  | "Confirmed" => some .Confirmed
  | "Shipped" => some .Shipped
  | "Delivered" => some .Delivered
  | "Cancelled" => some .Cancelled
  | _ => none

/-- An embedded order item snapshot (src/unnamed/part_011 lines 3-53). -/
structure OrderItem where
  product : String
  productName : String
  size : String
  color : String
  quantity : ℤ
  price : ℚ
  subtotal : ℚ
deriving DecidableEq, Repr

/-- The shipping address subdocument (src/unnamed/part_011 lines
68-75). -/
structure ShippingAddress where
  fullName : String
  address : String
  city : String
  postalCode : String
  country : String
  phone : String
deriving DecidableEq, Repr

/-- All six address fields truthy (src/src/controllers/order.controller.js
lines 33-43 and the schema's `required` flags). -/
def ShippingAddress.complete (a : ShippingAddress) : Bool :=
  a.fullName ≠ "" && a.address ≠ "" && a.city ≠ "" &&
    a.postalCode ≠ "" && a.country ≠ "" && a.phone ≠ ""

/-- The payment method enumeration (src/unnamed/part_011 lines 77-81). -/
inductive PaymentMethod
  | CashOnDelivery
  | Stripe
  | PayPal
deriving DecidableEq, Repr

/-- The order aggregate (src/unnamed/part_011; `paymentStatus`,
`notes`, `deliveredAt` and the timestamps are omitted as no verified
behaviour reads them). -/
structure Order where
  user : String
  orderItems : List OrderItem
  shippingAddress : ShippingAddress
  paymentMethod : PaymentMethod
  orderStatus : OrderStatus
  trackingNumber : Option String
  shippingCharge : ℚ
  totalAmount : ℚ
  finalAmount : ℚ
  discount : ℚ
  isDelivered : Bool
deriving DecidableEq, Repr

/-- `orderItemSchema.pre("validate")` (src/unnamed/part_011 lines
171-175): when price and quantity are truthy (non-zero), recompute
`subtotal = price * quantity`. -/
def OrderItem.preValidate (it : OrderItem) : OrderItem :=
  if it.price ≠ 0 ∧ it.quantity ≠ 0 then
    { it with subtotal := it.price * (it.quantity : ℚ) }
  else
    it

/-- The `orderItemSchema` field validators (src/unnamed/part_011 lines
3-53): required non-empty strings, integer quantity ≥ 1, price > 0,
subtotal ≥ 0. -/
def OrderItem.valid (it : OrderItem) : Bool :=
  it.product ≠ "" && it.productName ≠ "" && it.size ≠ "" && it.color ≠ "" &&
    1 ≤ it.quantity && 0 < it.price && 0 ≤ it.subtotal

/-- The `orderSchema` field validators (src/unnamed/part_011 lines
57-161): every item valid, complete address, non-negative shipping
charge and discount, positive total and final amounts. -/
def Order.validate (o : Order) : Bool :=
  o.user ≠ "" && o.orderItems.all OrderItem.valid &&
    o.shippingAddress.complete && 0 ≤ o.shippingCharge &&
    0 < o.totalAmount && 0 < o.finalAmount && 0 ≤ o.discount

/-- `this.orderItems.reduce((total, item) => total + item.price *
item.quantity, 0)` from the pre-save hook (src/unnamed/part_011 lines
180-182). -/
def itemsTotal (items : List OrderItem) : ℚ :=
  items.foldl (fun total it => total + it.price * (it.quantity : ℚ)) 0

/-- The `0.01` epsilon used by the amount checks. -/
def epsilon : ℚ := 1 / 100

/-- `orderSchema.pre("save")` (src/unnamed/part_011 lines 178-196):
reject when `|totalAmount - itemsTotal| > 0.01` or when
`|finalAmount - (totalAmount + shippingCharge - discount)| > 0.01`. -/
def Order.preSave (o : Order) : Except String Order :=
  if |o.totalAmount - itemsTotal o.orderItems| > epsilon then
    .error "Total amount does not match sum of order items"
  else if |o.finalAmount - (o.totalAmount + o.shippingCharge - o.discount)| > epsilon then
    .error "Final amount calculation is incorrect"
  else
    .ok o

/-- Schema validation followed by the pre-save hook, the tail of a
`save()` call. -/
def Order.saveValidated (o : Order) : Except String Order :=
  if o.validate then o.preSave else .error "Order validation failed"

/-- `order.save()`: run the item pre-validate hooks, the schema
validators, then the pre-save amount checks; an error aborts the save
and the stored document keeps its previous state. -/
def Order.save (o : Order) : Except String Order :=
  Order.saveValidated { o with orderItems := o.orderItems.map OrderItem.preValidate }

/-- `orderSchema.methods.canBeCancelled` (src/unnamed/part_011 lines
199-201). -/
def Order.canBeCancelled (o : Order) : Bool :=
  o.orderStatus == .Processing || o.orderStatus == .Confirmed

/-- `orderSchema.methods.cancel` (src/unnamed/part_011 lines 203-209):
throw unless the order can be cancelled, otherwise set the status to
`Cancelled` and save. -/
def Order.cancel (o : Order) : Except String Order :=
  if o.canBeCancelled then
    Order.save { o with orderStatus := .Cancelled }
  else
    .error "Order cannot be cancelled at this stage"

/-- `orderSchema.methods.updateStatus` (src/unnamed/part_011 lines
218-239): reject a status string outside the enumerated set; otherwise
assign the new status unconditionally, store a truthy tracking number,
set the delivered flag when the target is `Delivered`, and save. -/
def Order.updateStatus (o : Order) (newStatus : String)
    (trackingNumber : Option String) : Except String Order :=
  match OrderStatus.ofString newStatus with
  | none => .error "Invalid order status"
  | some st =>
    let o := { o with orderStatus := st }
    let o := match trackingNumber with
      | some t => { o with trackingNumber := some t }
      | none => o
    let o := if st = .Delivered then { o with isDelivered := true } else o
    o.save

/-- The product collection of the document store, keyed by product id.
`findById` / `save` in the controllers become lookup / replace on this
structure. -/
structure Store where
  products : List (String × Product)
deriving DecidableEq, Repr

/-- `Product.findById` against the store. -/
def Store.findById (s : Store) (id : String) : Option Product :=
  (s.products.find? (fun kv => kv.fst == id)).map (·.snd)

/-- `product.save()` against the store: replace the document with the
given id. -/
def Store.update (s : Store) (id : String) (p : Product) : Store :=
  ⟨s.products.map (fun kv => if kv.fst == id then (kv.fst, p) else kv)⟩

/-- One submitted order line (src/src/controllers/order.controller.js,
`req.body.orderItems` entries). -/
structure OrderItemInput where
  product : String
  size : String
  color : String
  quantity : ℤ
deriving DecidableEq, Repr

/-- The per-item validation loop of `createOrder`
(src/src/controllers/order.controller.js lines 64-104): check the
fields are truthy, load the product, check stock, snapshot name, price
and subtotal.  The loop only reads the store, so every line is checked
against the same product state. -/
def processOrderItems (store : Store) : List OrderItemInput → Except String (List OrderItem)
  | [] => .ok []
  | it :: rest =>
    if it.product = "" ∨ it.size = "" ∨ it.color = "" ∨ it.quantity = 0 then
      .error "Each order item must have product, size, color, and quantity"
    else
      match store.findById it.product with
      | none => .error "Product not found"
      | some p =>
        if !p.isInStock it.size it.color it.quantity then
          .error "Insufficient stock"
        else
          let price := p.getFinalPrice it.size it.color
          let item : OrderItem :=
            { product := it.product, productName := p.name, size := it.size,
              color := it.color, quantity := it.quantity, price := price,
              subtotal := price * (it.quantity : ℚ) }
          (processOrderItems store rest).map (item :: ·)

/-- One iteration of the stock-update loop of `createOrder`
(src/src/controllers/order.controller.js lines 126-130): re-load the
product and apply `updateVariantStock`. -/
def stockStep (store : Store) (it : OrderItemInput) : Except String Store :=
  match store.findById it.product with
  | none => .error "Cannot read properties of null"
  | some p =>
    (p.updateVariantStock it.size it.color it.quantity).map (store.update it.product)

/-- The whole stock-update loop, threading the store through the
sequential awaits. -/
def applyStockUpdates (store : Store) : List OrderItemInput → Except String Store
  | [] => .ok store
  | it :: rest =>
    match stockStep store it with
    | .error e => .error e
    | .ok store' => applyStockUpdates store' rest

/-- `createOrder` (src/src/controllers/order.controller.js lines
11-143).  The submitted payment method is modelled post-parse: `none`
stands for a missing or non-enumerated string.  The final cart wipe
(line 133) and the response population are outside the modelled state;
a stock-update failure after the order was persisted (the step-5 gap of
the spec) surfaces here as an error result. -/
def Controller.createOrder (store : Store) (userId : String)
    (orderItems : List OrderItemInput) (shippingAddress : ShippingAddress)
    (paymentMethod? : Option PaymentMethod) (shippingCharge discount : ℚ) :
    Except String (Order × Store) :=
  if orderItems.isEmpty then .error "Order items are required"
  else if !shippingAddress.complete then .error "Complete shipping address is required"
  else
    match paymentMethod? with
    | none => .error "Valid payment method is required"
    | some paymentMethod =>
      if shippingCharge < 0 then .error "Shipping charge cannot be negative"
      else if discount < 0 then .error "Discount cannot be negative"
      else
        match processOrderItems store orderItems with
        | .error e => .error e
        | .ok processed =>
          let calculatedTotal := processed.foldl (fun t i => t + i.subtotal) 0
          let finalAmount := calculatedTotal + shippingCharge - discount
          if finalAmount ≤ 0 then .error "Final order amount must be greater than 0"
          else
            let newOrder : Order :=
              { user := userId, orderItems := processed,
                shippingAddress := shippingAddress, paymentMethod := paymentMethod,
                orderStatus := .Processing, trackingNumber := none,
                shippingCharge := shippingCharge, totalAmount := calculatedTotal,
                finalAmount := finalAmount, discount := discount,
                isDelivered := false }
            match newOrder.save with
            | .error e => .error e
            | .ok saved =>
              match applyStockUpdates store orderItems with
              | .error e => .error e
              | .ok store' => .ok (saved, store')

/-- One iteration of the stock-restoration loop of `cancelOrder`
(src/src/controllers/order.controller.js lines 222-232): a missing
product or a missing variant is skipped; otherwise the matching
variant's quantity is increased by the item's ordered quantity and the
product saved. -/
def restoreStep (store : Store) (it : OrderItem) : Store :=
  match store.findById it.product with
  | none => store
  | some p =>
    match modifyFirstVariant it.size it.color
        (fun v => { v with quantity := v.quantity + it.quantity }) p.variants with
    | none => store
    | some vs => store.update it.product { p with variants := vs }

/-- The whole stock-restoration loop of `cancelOrder`. -/
def restoreStock (store : Store) : List OrderItem → Store
  | [] => store
  | it :: rest => restoreStock (restoreStep store it) rest

/-- `cancelOrder` (src/src/controllers/order.controller.js lines
201-240): `order.cancel()` first — a thrown transition error aborts the
request with no state change — then best-effort stock restoration. -/
def Controller.cancelOrder (o : Order) (store : Store) :
    Except String (Order × Store) :=
  match o.cancel with
  | .error e => .error e
  | .ok o' => .ok (o', restoreStock store o.orderItems)

/-- `addToCart` controller (src/unnamed/part_005 lines 52-151): field
truthiness, quantity bounds `0 < q ≤ 100`, product lookup, price match
within 0.01 of `getFinalPrice`, variant stock check, then the user
model's merging `addToCart`.  The save passes
`validateBeforeSave: false`, so the cart schema's `max: 99` is not
enforced. -/
def Controller.addToCart (cart : List CartItem) (product? : Option Product)
    (productId size color : String) (price : ℚ) (quantity : ℤ) :
    Except String (List CartItem) :=
  if productId = "" ∨ size = "" ∨ color = "" ∨ price = 0 ∨ quantity = 0 then
    .error "All fields (productId, size, color, price, quantity) are required"
  else if quantity ≤ 0 then .error "Quantity must be greater than 0"
  else if quantity > 100 then .error "Maximum quantity per item is 100"
  else
    match product? with
    | none => .error "Product not found"
    | some product =>
      if |price - product.getFinalPrice size color| > epsilon then
        .error "Price mismatch"
      else if !product.isInStock size color quantity then
        .error "Product variant is not available or insufficient stock"
      else
        .ok (User.addToCart cart productId size color price quantity)

/-- `removeFromCart` controller (src/unnamed/part_005 lines 154-249):
field truthiness, non-empty cart, line present, then the user model's
`removeFromCart` filter. -/
def Controller.removeFromCart (cart : List CartItem)
    (productId size color : String) : Except String (List CartItem) :=
  if productId = "" ∨ size = "" ∨ color = "" then
    .error "All fields (productId, size, color) are required"
  else if cart.isEmpty then .error "Cart is empty"
  else if (cart.find? (cartKeyMatches productId size color)).isNone then
    .error "Item not found in cart"
  else
    .ok (User.removeFromCart cart productId size color)

/-- The `findIndex`-then-act body of `decrementCartItem`: reject at the
first matching line when its quantity is already ≤ 1, otherwise
decrement it (the non-schema `subtotal` assignment is dropped by the
strict cart schema and omitted here). -/
def decrementFirst (productId size color : String) :
    List CartItem → Except String (List CartItem)
  | [] => .error "Item not found in cart"
  | it :: rest =>
    if cartKeyMatches productId size color it then
      if it.quantity ≤ 1 then
        .error "Cannot decrement quantity below 1. Use remove item instead."
      else
        .ok ({ it with quantity := it.quantity - 1 } :: rest)
    else
      match decrementFirst productId size color rest with
      | .ok rest' => .ok (it :: rest')
      | .error e => .error e

/-- `decrementCartItem` controller (src/unnamed/part_005 lines
317-383). -/
def Controller.decrementCartItem (cart : List CartItem)
    (productId size color : String) : Except String (List CartItem) :=
  if productId = "" ∨ size = "" ∨ color = "" then
    .error "All fields (productId, size, color) are required"
  else if cart.isEmpty then .error "Cart is empty"
  else decrementFirst productId size color cart

/-- The `findIndex`-then-act body of `incrementCartItem`: reject at the
first matching line past the 100 cap or past a truthy scalar `stock` of
the product, otherwise increment it. -/
def incrementFirst (product? : Option Product) (productId size color : String) :
    List CartItem → Except String (List CartItem)
  | [] => .error "Item not found in cart"
  | it :: rest =>
    if cartKeyMatches productId size color it then
      if 100 ≤ it.quantity then
        .error "Maximum quantity per item is 100"
      else
        match product? with
        | some p =>
          if p.stock ≠ 0 ∧ p.stock ≤ it.quantity then
            .error "Cannot add more items. Insufficient stock available."
          else
            .ok ({ it with quantity := it.quantity + 1 } :: rest)
        | none => .ok ({ it with quantity := it.quantity + 1 } :: rest)
    else
      match incrementFirst product? productId size color rest with
      | .ok rest' => .ok (it :: rest')
      | .error e => .error e

/-- `incrementCartItem` controller (src/unnamed/part_005 lines
386-458). -/
def Controller.incrementCartItem (cart : List CartItem)
    (product? : Option Product) (productId size color : String) :
    Except String (List CartItem) :=
  if productId = "" ∨ size = "" ∨ color = "" then
    .error "All fields (productId, size, color) are required"
  else if cart.isEmpty then .error "Cart is empty"
  else incrementFirst product? productId size color cart

/-! ## Example data used by the concrete witnesses -/

/-- Example variant `(L, Red)` with stock 5 and modifier +2. -/
def sampleVariant : Variant :=
  { size := "L", color := "Red", quantity := 5, priceModifier := 2 }

/-- Example product holding `sampleVariant`, base price 20. -/
def sampleProduct : Product :=
  { name := "Classic Tee", price := 20, stock := 0, variants := [sampleVariant] }

/-- Example complete shipping address. -/
def sampleAddress : ShippingAddress :=
  { fullName := "John Doe", address := "1 Main St", city := "Lahore",
    postalCode := "54000", country := "PK", phone := "03001234567" }

/-- Example order item: 2 units at 10 each. -/
def sampleItem : OrderItem :=
  { product := "p1", productName := "Classic Tee", size := "L", color := "Red",
    quantity := 2, price := 10, subtotal := 20 }

/-- Example order whose stored totals disagree with its items. -/
def mismatchedOrder : Order :=
  { user := "u1", orderItems := [sampleItem], shippingAddress := sampleAddress,
    paymentMethod := .CashOnDelivery, orderStatus := .Processing,
    trackingNumber := none, shippingCharge := 0, totalAmount := 30,
    finalAmount := 30, discount := 0, isDelivered := false }

/-- Example product with the `(L, Red)` variant at quantity 3, as left
after an order of 2 units. -/
def depletedProduct : Product :=
  { name := "Classic Tee", price := 20, stock := 0,
    variants := [{ size := "L", color := "Red", quantity := 3, priceModifier := 2 }] }

/-- Example store holding `depletedProduct` under id "p1". -/
def depletedStore : Store := ⟨[("p1", depletedProduct)]⟩

/-- Example consistent order in `Processing`: 2 units at 10 each. -/
def processingOrder : Order :=
  { user := "u1", orderItems := [sampleItem], shippingAddress := sampleAddress,
    paymentMethod := .CashOnDelivery, orderStatus := .Processing,
    trackingNumber := none, shippingCharge := 0, totalAmount := 20,
    finalAmount := 20, discount := 0, isDelivered := false }

/-- Example consistent order already in the terminal `Delivered`
status. -/
def deliveredOrder : Order :=
  { user := "u1", orderItems := [sampleItem], shippingAddress := sampleAddress,
    paymentMethod := .CashOnDelivery, orderStatus := .Delivered,
    trackingNumber := none, shippingCharge := 0, totalAmount := 20,
    finalAmount := 20, discount := 0, isDelivered := true }

/-- Example product with plenty of `(L, Red)` variant stock and a zero
legacy scalar stock. -/
def bulkProduct : Product :=
  { name := "Bulk Tee", price := 20, stock := 0,
    variants := [{ size := "L", color := "Red", quantity := 200, priceModifier := 2 }] }

/-- One submitted line requesting the sample variant's entire stock. -/
def oversoldInput : OrderItemInput :=
  { product := "p1", size := "L", color := "Red", quantity := 5 }

/-- Example store holding `sampleProduct` under id "p1". -/
def sampleStore : Store := ⟨[("p1", sampleProduct)]⟩

/-- The order item snapshot produced for `oversoldInput`. -/
def oversoldItem : OrderItem :=
  { product := "p1", productName := "Classic Tee", size := "L", color := "Red",
    quantity := 5, price := 22, subtotal := 110 }

/-- The order produced for two copies of `oversoldInput`. -/
def oversoldOrder : Order :=
  { user := "u1", orderItems := [oversoldItem, oversoldItem],
    shippingAddress := sampleAddress, paymentMethod := .CashOnDelivery,
    orderStatus := .Processing, trackingNumber := none, shippingCharge := 0,
    totalAmount := 220, finalAmount := 220, discount := 0, isDelivered := false }

/-- The store after both clamped decrements. -/
def oversoldStore : Store :=
  ⟨[("p1", { sampleProduct with variants := [{ sampleVariant with quantity := 0 }] })]⟩

/-- Example cart line for a different key, untouched by the C10
operations. -/
def otherLine : CartItem :=
  { product := "p2", size := "M", color := "Blue", quantity := 4, priceAtTime := 15 }

/-- Example cart line at quantity 1 for the `(p1, L, Red)` key. -/
def singleLine : CartItem :=
  { product := "p1", size := "L", color := "Red", quantity := 1, priceAtTime := 22 }

/-! ## Helper lemmas -/

/-! ## Helper lemmas about first-match recursions -/

lemma findFirstMiddle {α : Type} (p : α → Bool) (l₁ l₂ : List α) (v : α)
    (h₁ : ∀ x ∈ l₁, p x = false) (hv : p v = true) :
    (l₁ ++ v :: l₂).find? p = some v := by
  induction l₁ with
  | nil => simp [List.find?_cons, hv]
  | cons a as ih =>
    have ha : p a = false := h₁ a (by simp)
    rw [List.cons_append, List.find?_cons, ha]
    exact ih fun x hx => h₁ x (by simp [hx])

lemma findFirstNone {α : Type} (p : α → Bool) (l : List α)
    (h : ∀ x ∈ l, p x = false) : l.find? p = none := by
  rw [List.find?_eq_none]
  intro x hx hpx
  simp [h x hx] at hpx

lemma modifyFirstVariantMiddle (s c : String) (f : Variant → Variant)
    (l₁ l₂ : List Variant) (v : Variant)
    (h₁ : ∀ x ∈ l₁, variantMatches s c x = false)
    (hv : variantMatches s c v = true) :
    modifyFirstVariant s c f (l₁ ++ v :: l₂) = some (l₁ ++ f v :: l₂) := by
  induction l₁ with
  | nil => simp [modifyFirstVariant, hv]
  | cons a as ih =>
    have ha : variantMatches s c a = false := h₁ a (by simp)
    rw [List.cons_append, modifyFirstVariant, ha]
    simp only [Bool.false_eq_true, if_false]
    rw [ih fun x hx => h₁ x (by simp [hx])]
    rfl

lemma modifyFirstVariantNone (s c : String) (f : Variant → Variant)
    (l : List Variant) (h : ∀ x ∈ l, variantMatches s c x = false) :
    modifyFirstVariant s c f l = none := by
  induction l with
  | nil => rfl
  | cons a as ih =>
    have ha : variantMatches s c a = false := h a (by simp)
    rw [modifyFirstVariant, ha]
    simp only [Bool.false_eq_true, if_false]
    rw [ih fun x hx => h x (by simp [hx])]
    rfl

lemma modifyFirstLineMiddle (pid s c : String) (f : CartItem → CartItem)
    (l₁ l₂ : List CartItem) (it : CartItem)
    (h₁ : ∀ x ∈ l₁, cartKeyMatches pid s c x = false)
    (hit : cartKeyMatches pid s c it = true) :
    modifyFirstLine pid s c f (l₁ ++ it :: l₂) = some (l₁ ++ f it :: l₂) := by
  induction l₁ with
  | nil => simp [modifyFirstLine, hit]
  | cons a as ih =>
    have ha : cartKeyMatches pid s c a = false := h₁ a (by simp)
    rw [List.cons_append, modifyFirstLine, ha]
    simp only [Bool.false_eq_true, if_false]
    rw [ih fun x hx => h₁ x (by simp [hx])]
    rfl

lemma decrementFirstMiddleErr (pid s c : String)
    (l₁ l₂ : List CartItem) (it : CartItem)
    (h₁ : ∀ x ∈ l₁, cartKeyMatches pid s c x = false)
    (hit : cartKeyMatches pid s c it = true)
    (hq : it.quantity ≤ 1) :
    decrementFirst pid s c (l₁ ++ it :: l₂) =
      .error "Cannot decrement quantity below 1. Use remove item instead." := by
  induction l₁ with
  | nil => simp [decrementFirst, hit, hq]
  | cons a as ih =>
    have ha : cartKeyMatches pid s c a = false := h₁ a (by simp)
    rw [List.cons_append, decrementFirst, ha]
    simp only [Bool.false_eq_true, if_false]
    rw [ih fun x hx => h₁ x (by simp [hx])]

/-! ## Helper lemmas about the order save pipeline -/

lemma preValidatePrice (it : OrderItem) :
    (OrderItem.preValidate it).price = it.price := by
  unfold OrderItem.preValidate
  split <;> rfl

lemma preValidateQuantity (it : OrderItem) :
    (OrderItem.preValidate it).quantity = it.quantity := by
  unfold OrderItem.preValidate
  split <;> rfl

lemma itemsTotalMapPreValidate (items : List OrderItem) :
    itemsTotal (items.map OrderItem.preValidate) = itemsTotal items := by
  unfold itemsTotal
  rw [List.foldl_map]
  simp [preValidatePrice, preValidateQuantity]

lemma saveValidatedStatus (o : Order) (st : OrderStatus)
    (h : Order.saveValidated o = .ok o) :
    Order.saveValidated { o with orderStatus := st } =
      .ok { o with orderStatus := st } := by
  unfold Order.saveValidated Order.preSave Order.validate at h ⊢
  dsimp only at h ⊢
  split at h
  · split at h
    · cases h
    · split at h
      · cases h
      · rename_i hv h1 h2
        rw [if_pos hv, if_neg h1, if_neg h2]
  · cases h

lemma saveWithStatus (o : Order) (h : Order.save o = .ok o) (st : OrderStatus) :
    Order.save { o with orderStatus := st } = .ok { o with orderStatus := st } := by
  have hm : o.orderItems.map OrderItem.preValidate = o.orderItems := by
    unfold Order.save Order.saveValidated at h
    split at h
    · unfold Order.preSave at h
      split at h
      · cases h
      · split at h
        · cases h
        · exact congrArg Order.orderItems (Except.ok.inj h)
    · cases h
  have h' : Order.saveValidated o = .ok o := by
    unfold Order.save at h
    rw [hm] at h
    exact h
  have h2 := saveValidatedStatus o st h'
  unfold Order.save
  show Order.saveValidated
      { o with orderStatus := st,
               orderItems := o.orderItems.map OrderItem.preValidate } = _
  rw [hm]
  exact h2

lemma variantMatchesFalse (s c : String) (x : Variant)
    (h : ¬(x.size = s ∧ x.color = c)) : variantMatches s c x = false := by
  unfold variantMatches
  rcases not_and_or.mp h with h' | h' <;> simp [h']

/-! ## The claims -/

/-- C1: persisting an order whose stored `totalAmount` strays more than
0.01 from the recomputed item total, or whose `finalAmount` strays more
than 0.01 from `totalAmount + shippingCharge - discount`, fails with an
error (the order is not stored), and a successful persist keeps the
submitted totals unchanged — they are never silently corrected — and
they satisfy both epsilon identities. -/
theorem amountMismatchFailsPersist (o : Order) :
    ((|o.totalAmount - itemsTotal o.orderItems| > epsilon ∨
      |o.finalAmount - (o.totalAmount + o.shippingCharge - o.discount)| > epsilon) →
      ∃ e, Order.save o = .error e)
  ∧ (∀ o', Order.save o = .ok o' →
      o'.totalAmount = o.totalAmount ∧ o'.finalAmount = o.finalAmount ∧
      o'.shippingCharge = o.shippingCharge ∧ o'.discount = o.discount ∧
      |o.totalAmount - itemsTotal o.orderItems| ≤ epsilon ∧
      |o.finalAmount - (o.totalAmount + o.shippingCharge - o.discount)| ≤ epsilon) := by
  have hmap : itemsTotal (o.orderItems.map OrderItem.preValidate) = itemsTotal o.orderItems :=
    itemsTotalMapPreValidate _
  constructor
  · intro h
    unfold Order.save Order.saveValidated
    split
    · unfold Order.preSave
      split
      · exact ⟨_, rfl⟩
      · split
        · exact ⟨_, rfl⟩
        · rename_i h1 h2
          simp only [hmap] at h1
          exact absurd h (by push_neg; exact ⟨not_lt.mp h1, not_lt.mp h2⟩)
    · exact ⟨_, rfl⟩
  · intro o' ho'
    unfold Order.save Order.saveValidated at ho'
    split at ho'
    · unfold Order.preSave at ho'
      split at ho'
      · cases ho'
      · split at ho'
        · cases ho'
        · rename_i h1 h2
          cases ho'
          simp only [hmap] at h1
          exact ⟨rfl, rfl, rfl, rfl, not_lt.mp h1, not_lt.mp h2⟩
    · cases ho'

/-- C1 witness: the concrete order storing `totalAmount = 30` over
items summing to 20 is rejected by the persist operation. -/
theorem amountMismatchFailsPersist_witness :
    ∃ e, Order.save mismatchedOrder = .error e := by
  apply (amountMismatchFailsPersist mismatchedOrder).1
  left
  norm_num [mismatchedOrder, sampleItem, itemsTotal, epsilon]

/-- C2: `updateVariantStock` fails with "Variant not found" when no
variant matches `(size, color)`; when the first match is `v` it
persists the product with that variant's quantity set to
`max 0 (v.quantity - requested)` — never negative — and every
item-iteration of a successful order-creation stock loop is exactly one
such clamped decrement applied to the store state left by the previous
items. -/
theorem updateVariantStock_spec (p : Product) (s c : String) (n : ℤ) :
    (p.getVariant s c = none →
      p.updateVariantStock s c n = .error "Variant not found")
  ∧ (∀ l₁ v l₂, p.variants = l₁ ++ v :: l₂ →
      (∀ x ∈ l₁, variantMatches s c x = false) → variantMatches s c v = true →
      p.updateVariantStock s c n =
        .ok { p with variants := l₁ ++ { v with quantity := max 0 (v.quantity - n) } :: l₂ }
      ∧ Product.getVariant
          { p with variants := l₁ ++ { v with quantity := max 0 (v.quantity - n) } :: l₂ } s c
          = some { v with quantity := max 0 (v.quantity - n) }
      ∧ 0 ≤ max 0 (v.quantity - n))
  ∧ (∀ store it rest store'',
      applyStockUpdates store (it :: rest) = .ok store'' →
      ∃ pr pr', store.findById it.product = some pr ∧
        pr.updateVariantStock it.size it.color it.quantity = .ok pr' ∧
        applyStockUpdates (store.update it.product pr') rest = .ok store'') := by
  refine ⟨?_, ?_, ?_⟩
  · intro h
    unfold Product.getVariant at h
    rw [List.find?_eq_none] at h
    unfold Product.updateVariantStock
    rw [modifyFirstVariantNone s c _ p.variants fun x hx => by
      have := h x hx
      exact Bool.eq_false_iff.mpr this]
  · intro l₁ v l₂ hdec h₁ hv
    have hm := modifyFirstVariantMiddle s c
      (fun w => { w with quantity := max 0 (w.quantity - n) }) l₁ l₂ v h₁ hv
    unfold Product.updateVariantStock
    rw [hdec, hm]
    refine ⟨rfl, ?_, le_max_left 0 _⟩
    unfold Product.getVariant
    exact findFirstMiddle _ l₁ l₂ _ h₁ (by simpa [variantMatches] using hv)
  · intro store it rest store'' h
    unfold applyStockUpdates at h
    cases hs : stockStep store it with
    | error e => rw [hs] at h; cases h
    | ok s' =>
      rw [hs] at h
      unfold stockStep at hs
      cases hfind : store.findById it.product with
      | none => rw [hfind] at hs; cases hs
      | some pr =>
        rw [hfind] at hs
        have hs' : Except.map (store.update it.product)
            (pr.updateVariantStock it.size it.color it.quantity) = Except.ok s' := hs
        cases hupd : pr.updateVariantStock it.size it.color it.quantity with
        | error e =>
          rw [hupd] at hs'
          simp [Except.map] at hs'
        | ok pr' =>
          rw [hupd] at hs'
          cases hs'
          exact ⟨pr, pr', rfl, hupd, h⟩

/-- C2 witness: decrementing 3 from the `(L, Red)` variant holding 5
leaves `max 0 (5 - 3) = 2`, a non-negative quantity. -/
theorem updateVariantStock_spec_witness :
    sampleProduct.updateVariantStock "L" "Red" 3 =
      .ok { sampleProduct with
            variants := [{ sampleVariant with quantity := max 0 (5 - 3) }] }
  ∧ 0 ≤ max 0 ((5:ℤ) - 3) := by
  have h := (updateVariantStock_spec sampleProduct "L" "Red" 3).2.1
    [] sampleVariant [] rfl (by simp) (by decide)
  exact ⟨h.1, h.2.2⟩

/-- C3: for a persistable order, cancellation succeeds exactly when the
status is `Processing` or `Confirmed`, producing the order with status
`Cancelled` and the store after the restoration loop; cancelling from
`Shipped` or `Delivered` fails with the invalid-transition error and
changes nothing.  The restoration loop handles the items in order, and
each step either skips a missing product or variant or increments the
first matching variant's quantity by exactly that item's ordered
quantity. -/
theorem cancelOrder_spec (o : Order) (store : Store)
    (h : Order.save o = .ok o) :
    (Controller.cancelOrder o store =
        .ok ({ o with orderStatus := .Cancelled }, restoreStock store o.orderItems)
      ↔ (o.orderStatus = .Processing ∨ o.orderStatus = .Confirmed))
  ∧ ((o.orderStatus = .Shipped ∨ o.orderStatus = .Delivered) →
      Controller.cancelOrder o store = .error "Order cannot be cancelled at this stage")
  ∧ (∀ s it rest, restoreStock s (it :: rest) = restoreStock (restoreStep s it) rest)
  ∧ (∀ (s : Store) (it : OrderItem),
      (s.findById it.product = none → restoreStep s it = s)
      ∧ (∀ pr, s.findById it.product = some pr →
          ((∀ x ∈ pr.variants, variantMatches it.size it.color x = false) →
            restoreStep s it = s)
          ∧ (∀ l₁ v l₂, pr.variants = l₁ ++ v :: l₂ →
              (∀ x ∈ l₁, variantMatches it.size it.color x = false) →
              variantMatches it.size it.color v = true →
              restoreStep s it = s.update it.product
                { pr with variants :=
                    l₁ ++ { v with quantity := v.quantity + it.quantity } :: l₂ }))) := by
  have hok : o.canBeCancelled = true →
      Controller.cancelOrder o store =
        .ok ({ o with orderStatus := .Cancelled }, restoreStock store o.orderItems) := by
    intro hc
    unfold Controller.cancelOrder Order.cancel
    rw [hc]
    simp only [if_true]
    rw [saveWithStatus o h .Cancelled]
  have hfail : o.canBeCancelled = false →
      Controller.cancelOrder o store =
        .error "Order cannot be cancelled at this stage" := by
    intro hc
    unfold Controller.cancelOrder Order.cancel
    rw [hc]
    rfl
  refine ⟨⟨?_, ?_⟩, ?_, ?_, ?_⟩
  · intro heq
    cases hst : o.orderStatus with
    | Processing => exact Or.inl rfl
    | Confirmed => exact Or.inr rfl
    | Shipped =>
      rw [hfail (by simp [Order.canBeCancelled, hst])] at heq
      cases heq
    | Delivered =>
      rw [hfail (by simp [Order.canBeCancelled, hst])] at heq
      cases heq
    | Cancelled =>
      rw [hfail (by simp [Order.canBeCancelled, hst])] at heq
      cases heq
  · intro hst
    apply hok
    cases hst with
    | inl hp => simp [Order.canBeCancelled, hp]
    | inr hc => simp [Order.canBeCancelled, hc]
  · intro hst
    apply hfail
    cases hst with
    | inl hp => simp [Order.canBeCancelled, hp]
    | inr hc => simp [Order.canBeCancelled, hc]
  · intro s it rest
    rfl
  · intro s it
    constructor
    · intro hn
      unfold restoreStep
      rw [hn]
    · intro pr hpr
      constructor
      · intro hno
        unfold restoreStep
        rw [hpr]
        dsimp only
        rw [modifyFirstVariantNone it.size it.color _ pr.variants hno]
      · intro l₁ v l₂ hdec h₁ hv
        unfold restoreStep
        rw [hpr]
        dsimp only
        rw [hdec, modifyFirstVariantMiddle it.size it.color _ l₁ l₂ v h₁ hv]

/-- C3 witness: cancelling the concrete `Processing` order succeeds,
sets status `Cancelled`, and restores the `(L, Red)` variant from 3
back to 5. -/
theorem cancelOrder_spec_witness :
    Controller.cancelOrder processingOrder depletedStore =
      .ok ({ processingOrder with orderStatus := .Cancelled },
           restoreStock depletedStore processingOrder.orderItems)
  ∧ restoreStock depletedStore processingOrder.orderItems =
      ⟨[("p1", { depletedProduct with
          variants := [{ size := "L", color := "Red", quantity := 5, priceModifier := 2 }] })]⟩ := by
  have hsave : processingOrder.save = .ok processingOrder := by
    simp [Order.save, Order.saveValidated, Order.validate, Order.preSave, OrderItem.preValidate,
      itemsTotal, epsilon, processingOrder, sampleItem, sampleAddress, ShippingAddress.complete,
      OrderItem.valid]
    norm_num
  refine ⟨(cancelOrder_spec processingOrder depletedStore hsave).1.mpr (Or.inl rfl), ?_⟩
  simp [restoreStock, restoreStep, depletedStore, depletedProduct, processingOrder, sampleItem,
    Store.findById, Store.update, modifyFirstVariant, variantMatches]

/-- C4: `updateStatus` validates only membership of the submitted
status in the enumerated set and assigns it regardless of the current
status, so both terminal states admit outgoing transitions: the
concrete `Delivered` order is moved back to `Processing`, and the same
order in `Cancelled` is moved to `Shipped` — contradicting the
documented state machine. -/
theorem updateStatusEscapesTerminal :
    deliveredOrder.orderStatus = .Delivered
  ∧ deliveredOrder.updateStatus "Processing" none =
      .ok { deliveredOrder with orderStatus := .Processing }
  ∧ ({ deliveredOrder with orderStatus := .Cancelled } : Order).updateStatus "Shipped" none =
      .ok { deliveredOrder with orderStatus := .Shipped } := by
  refine ⟨rfl, ?_, ?_⟩ <;>
  · simp [Order.updateStatus, OrderStatus.ofString, Order.save, Order.saveValidated,
      Order.validate, Order.preSave, OrderItem.preValidate, itemsTotal, epsilon,
      deliveredOrder, sampleItem, sampleAddress, ShippingAddress.complete, OrderItem.valid]
    norm_num

/-- C5: under the data model's uniqueness of `(size, color)` within a
product, `isInStock` is true exactly when a matching variant exists
with at least the requested quantity, and is false whenever no variant
matches. -/
theorem isInStock_spec (p : Product) (s c : String) (n : ℤ)
    (hnd : (p.variants.map fun v => (v.size, v.color)).Nodup) :
    (p.isInStock s c n = true ↔
      ∃ v ∈ p.variants, v.size = s ∧ v.color = c ∧ n ≤ v.quantity)
  ∧ ((∀ v ∈ p.variants, ¬(v.size = s ∧ v.color = c)) →
      p.isInStock s c n = false) := by
  constructor
  · constructor
    · intro h
      unfold Product.isInStock at h
      cases hf : p.getVariant s c with
      | none => rw [hf] at h; cases h
      | some w =>
        rw [hf] at h
        have hf' : p.variants.find? (variantMatches s c) = some w := hf
        have hw : variantMatches s c w = true := List.find?_some hf'
        have hmem : w ∈ p.variants := List.mem_of_find?_eq_some hf'
        have hsz : w.size = s ∧ w.color = c := by simpa [variantMatches] using hw
        exact ⟨w, hmem, hsz.1, hsz.2, by simpa using h⟩
    · rintro ⟨v, hv, hs', hc', hq⟩
      unfold Product.isInStock
      cases hf : p.getVariant s c with
      | none =>
        exfalso
        have hf' : p.variants.find? (variantMatches s c) = none := hf
        rw [List.find?_eq_none] at hf'
        exact hf' v hv (by simp [variantMatches, hs', hc'])
      | some w =>
        have hf' : p.variants.find? (variantMatches s c) = some w := hf
        have hw : variantMatches s c w = true := List.find?_some hf'
        have hmem : w ∈ p.variants := List.mem_of_find?_eq_some hf'
        have hsz : w.size = s ∧ w.color = c := by simpa [variantMatches] using hw
        have hvw : v = w :=
          List.inj_on_of_nodup_map hnd hv hmem (by rw [hsz.1, hsz.2, hs', hc'])
        simpa using hvw ▸ hq
  · intro hno
    unfold Product.isInStock
    cases hf : p.getVariant s c with
    | none => rfl
    | some w =>
      exfalso
      have hf' : p.variants.find? (variantMatches s c) = some w := hf
      have hw : variantMatches s c w = true := List.find?_some hf'
      have hmem : w ∈ p.variants := List.mem_of_find?_eq_some hf'
      exact hno w hmem (by simpa [variantMatches] using hw)

/-- C5 witness: the sample product with the unique `(L, Red)` variant
at quantity 5 is in stock for a request of 3. -/
theorem isInStock_spec_witness : sampleProduct.isInStock "L" "Red" 3 = true := by
  apply (isInStock_spec sampleProduct "L" "Red" 3 (by simp [sampleProduct, sampleVariant])).1.mpr
  exact ⟨sampleVariant, by simp [sampleProduct], rfl, rfl, by norm_num [sampleVariant]⟩

/-- C6: adding to a cart that already holds a line for the submitted
`(product, size, color)` key rewrites exactly that line — its quantity
grows by the requested amount and its price snapshot is overwritten —
and the cart keeps the same number of lines, so no duplicate line is
ever created. -/
theorem addToCartMerges (l₁ l₂ : List CartItem) (it : CartItem)
    (pid s c : String) (price : ℚ) (q : ℤ)
    (h₁ : ∀ x ∈ l₁, cartKeyMatches pid s c x = false)
    (hit : cartKeyMatches pid s c it = true) :
    User.addToCart (l₁ ++ it :: l₂) pid s c price q =
      l₁ ++ { it with quantity := it.quantity + q, priceAtTime := price } :: l₂
  ∧ (User.addToCart (l₁ ++ it :: l₂) pid s c price q).length =
      (l₁ ++ it :: l₂).length := by
  have hm := modifyFirstLineMiddle pid s c
    (fun j => { j with quantity := j.quantity + q, priceAtTime := price }) l₁ l₂ it h₁ hit
  constructor
  · unfold User.addToCart
    rw [hm]
  · unfold User.addToCart
    rw [hm]
    simp

/-- C6 witness: adding `(p1, L, Red)` with quantity 2 to an empty cart
and then again with quantity 3 yields the single line with quantity
5. -/
theorem addToCartMerges_witness :
    User.addToCart (User.addToCart [] "p1" "L" "Red" 22 2) "p1" "L" "Red" 22 3 =
      [{ product := "p1", size := "L", color := "Red", quantity := 5, priceAtTime := 22 }] := by
  have h1 : User.addToCart [] "p1" "L" "Red" 22 2 =
      [{ product := "p1", size := "L", color := "Red", quantity := 2, priceAtTime := 22 }] := by
    simp [User.addToCart, modifyFirstLine]
  rw [h1]
  have h := (addToCartMerges []
    [] { product := "p1", size := "L", color := "Red", quantity := 2, priceAtTime := 22 }
    "p1" "L" "Red" 22 3 (by simp) (by simp [cartKeyMatches])).1
  simpa using h

/-- C7: the cart controllers cap the quantity at 100, not 99, and the
saves skip schema validation, so the declared `1 ≤ quantity ≤ 99` cart
invariant is violated: a request for quantity 100 is accepted into the
cart, and a line already at 99 is incremented to 100. -/
theorem cartQuantityBoundViolated :
    Controller.addToCart [] (some bulkProduct) "p1" "L" "Red" 22 100 =
      .ok [{ product := "p1", size := "L", color := "Red",
             quantity := 100, priceAtTime := 22 }]
  ∧ Controller.incrementCartItem
      [{ product := "p1", size := "L", color := "Red", quantity := 99, priceAtTime := 22 }]
      (some bulkProduct) "p1" "L" "Red" =
      .ok [{ product := "p1", size := "L", color := "Red",
             quantity := 100, priceAtTime := 22 }]
  ∧ ¬ ((100 : ℤ) ≤ 99) := by
  refine ⟨?_, ?_, by norm_num⟩
  · simp [Controller.addToCart, epsilon, bulkProduct, Product.getFinalPrice, modifierOf,
      Product.getVariant, Product.isInStock, variantMatches, User.addToCart,
      modifyFirstLine, List.find?]
    try norm_num
  · simp [Controller.incrementCartItem, incrementFirst, cartKeyMatches, bulkProduct]
    try norm_num

/-- C8: each line of an order is stock-checked against a freshly loaded
product with no running deduction, so two lines each requesting the
variant's entire stock of 5 both pass `isInStock`, the order for 10
units is accepted, and the clamped decrements leave the variant at 0 —
the 5-unit shortfall is silently absorbed. -/
theorem createOrderOversells :
    sampleProduct.isInStock "L" "Red" 5 = true
  ∧ Controller.createOrder sampleStore "u1" [oversoldInput, oversoldInput]
      sampleAddress (some .CashOnDelivery) 0 0 = .ok (oversoldOrder, oversoldStore)
  ∧ oversoldInput.quantity + oversoldInput.quantity > sampleVariant.quantity
  ∧ oversoldStore.findById "p1" =
      some { sampleProduct with variants := [{ sampleVariant with quantity := 0 }] } := by
  refine ⟨?_, ?_, by norm_num [oversoldInput, sampleVariant], ?_⟩
  · simp [Product.isInStock, Product.getVariant, sampleProduct, sampleVariant,
      variantMatches, List.find?]
  · simp [Controller.createOrder, processOrderItems, applyStockUpdates, stockStep,
      Store.findById, Store.update, sampleStore, sampleProduct, sampleVariant,
      sampleAddress, ShippingAddress.complete, Product.isInStock, Product.getVariant,
      Product.getFinalPrice, modifierOf, variantMatches, Product.updateVariantStock,
      modifyFirstVariant, Order.save, Order.saveValidated, Order.validate, Order.preSave,
      OrderItem.preValidate, OrderItem.valid, itemsTotal, epsilon, oversoldInput,
      oversoldItem, oversoldOrder, oversoldStore, List.find?, Except.bind, Except.map]
    try norm_num
  · simp [oversoldStore, Store.findById, List.find?, sampleProduct, sampleVariant]

/-- C9: `getFinalPrice` never fails — it is a total function — and
returns the base price plus the matching variant's modifier when a
variant matches `(size, color)` (unique by the data model), and the
base price unchanged when none does. -/
theorem getFinalPrice_spec (p : Product) (s c : String) :
    ((∀ v ∈ p.variants, ¬(v.size = s ∧ v.color = c)) →
      p.getFinalPrice s c = p.price)
  ∧ ((p.variants.map fun v => (v.size, v.color)).Nodup →
      ∀ v ∈ p.variants, v.size = s → v.color = c →
        p.getFinalPrice s c = p.price + v.priceModifier) := by
  constructor
  · intro hno
    have hf : p.getVariant s c = none := by
      unfold Product.getVariant
      exact findFirstNone _ _ fun x hx => variantMatchesFalse s c x (hno x hx)
    unfold Product.getFinalPrice
    rw [hf]
    simp [modifierOf]
  · intro hnd v hv hs' hc'
    cases hf : p.getVariant s c with
    | none =>
      exfalso
      have hf' : p.variants.find? (variantMatches s c) = none := hf
      rw [List.find?_eq_none] at hf'
      exact hf' v hv (by simp [variantMatches, hs', hc'])
    | some w =>
      have hf' : p.variants.find? (variantMatches s c) = some w := hf
      have hw : variantMatches s c w = true := List.find?_some hf'
      have hmem : w ∈ p.variants := List.mem_of_find?_eq_some hf'
      have hsz : w.size = s ∧ w.color = c := by simpa [variantMatches] using hw
      have hvw : v = w :=
        List.inj_on_of_nodup_map hnd hv hmem (by rw [hsz.1, hsz.2, hs', hc'])
      unfold Product.getFinalPrice
      rw [hf, hvw]
      rfl

/-- C9 witness: the sample product prices `(L, Red)` at `20 + 2 = 22`
and the absent `(M, Red)` at the base price 20. -/
theorem getFinalPrice_spec_witness :
    sampleProduct.getFinalPrice "L" "Red" = 22
  ∧ sampleProduct.getFinalPrice "M" "Red" = 20 := by
  constructor
  · have h := (getFinalPrice_spec sampleProduct "L" "Red").2
      (by simp [sampleProduct, sampleVariant]) sampleVariant (by simp [sampleProduct]) rfl rfl
    rw [h]
    norm_num [sampleProduct, sampleVariant]
  · have h := (getFinalPrice_spec sampleProduct "M" "Red").1 (by
      intro v hv
      simp only [sampleProduct] at hv
      simp only [List.mem_singleton] at hv
      subst hv
      simp [sampleVariant])
    rw [h]
    rfl

/-- C10: for a cart line at quantity exactly 1, the decrement
controller rejects the request with the decrement-below-1 error (no
cart state is produced), while the remove operation deletes exactly
that line, keeping every other line. -/
theorem decrementRejectsAtOne (l₁ l₂ : List CartItem) (it : CartItem)
    (pid s c : String)
    (h₁ : ∀ x ∈ l₁, cartKeyMatches pid s c x = false)
    (h₂ : ∀ x ∈ l₂, cartKeyMatches pid s c x = false)
    (hit : cartKeyMatches pid s c it = true)
    (hq : it.quantity = 1)
    (hpid : pid ≠ "") (hs : s ≠ "") (hc : c ≠ "") :
    Controller.decrementCartItem (l₁ ++ it :: l₂) pid s c =
      .error "Cannot decrement quantity below 1. Use remove item instead."
  ∧ User.removeFromCart (l₁ ++ it :: l₂) pid s c = l₁ ++ l₂
  ∧ Controller.removeFromCart (l₁ ++ it :: l₂) pid s c = .ok (l₁ ++ l₂) := by
  have e₁ : List.filter (fun x => !(cartKeyMatches pid s c x)) l₁ = l₁ :=
    List.filter_eq_self.mpr fun x hx => by simp [h₁ x hx]
  have e₂ : List.filter (fun x => !(cartKeyMatches pid s c x)) l₂ = l₂ :=
    List.filter_eq_self.mpr fun x hx => by simp [h₂ x hx]
  have hrem : User.removeFromCart (l₁ ++ it :: l₂) pid s c = l₁ ++ l₂ := by
    unfold User.removeFromCart
    rw [List.filter_append, List.filter_cons, e₁, e₂]
    simp [hit]
  refine ⟨?_, hrem, ?_⟩
  · unfold Controller.decrementCartItem
    rw [if_neg (by simp [hpid, hs, hc]), if_neg (by simp)]
    exact decrementFirstMiddleErr pid s c l₁ l₂ it h₁ hit (by simp [hq])
  · unfold Controller.removeFromCart
    have hfind : (l₁ ++ it :: l₂).find? (cartKeyMatches pid s c) = some it :=
      findFirstMiddle _ l₁ l₂ it h₁ hit
    rw [if_neg (by simp [hpid, hs, hc]), if_neg (by simp), if_neg (by simp [hfind]), hrem]

/-- C10 witness: on the concrete cart `[singleLine, otherLine]`, the
decrement of `(p1, L, Red)` is rejected and the remove deletes only
`singleLine`. -/
theorem decrementRejectsAtOne_witness :
    Controller.decrementCartItem [singleLine, otherLine] "p1" "L" "Red" =
      .error "Cannot decrement quantity below 1. Use remove item instead."
  ∧ User.removeFromCart [singleLine, otherLine] "p1" "L" "Red" = [otherLine]
  ∧ Controller.removeFromCart [singleLine, otherLine] "p1" "L" "Red" = .ok [otherLine] := by
  have h := decrementRejectsAtOne [] [otherLine] singleLine "p1" "L" "Red"
    (by simp) (by simp [otherLine, cartKeyMatches]) (by simp [singleLine, cartKeyMatches])
    rfl (by simp) (by simp) (by simp)
  exact ⟨h.1, h.2.1, h.2.2⟩
